import Mathlib

/-!
# AD7616 driver: pin sequencing and configuration handling

A shallow embedding of `ad7616.h` / `ad7616.c`.

* A C pointer that may be `NULL` is an `Option`.
* The hardware behind the callbacks (everything reachable through
  `user_ctx`) is an abstract world `σ`; a callback is a function that takes
  the world and gives back the new world (and its return value, if any).
  A callback slot of `ad7616_hw_ops_t` that holds `NULL` is `none`.
* The configuration enums are kept as their underlying integers, because the
  driver branches on them with a `switch` that has no `default`, with `==`
  and with a cast to `uint8_t`.
-/

namespace AD7616

/-! ## ad7616.h -/

abbrev AD7616_PIN_ENRESET : Nat := 0
abbrev AD7616_PIN_SEQEN : Nat := 1
abbrev AD7616_PIN_RNGSEL0 : Nat := 2
abbrev AD7616_PIN_RNGSEL1 : Nat := 3
abbrev AD7616_PIN_SER : Nat := 4
abbrev AD7616_PIN_WR : Nat := 5
abbrev AD7616_PIN_RD : Nat := 6
abbrev AD7616_PIN_CS : Nat := 7
abbrev AD7616_PIN_CHSEL0 : Nat := 8
abbrev AD7616_PIN_CHSEL1 : Nat := 9
abbrev AD7616_PIN_CHSEL2 : Nat := 10
abbrev AD7616_PIN_CONVST : Nat := 11
abbrev AD7616_PIN_BUSY : Nat := 12

/-- Logical pin level, `AD7616_PIN_RESET = 0` and `AD7616_PIN_SET = 1`. -/
inductive ad7616_pin_state_t where
  | AD7616_PIN_RESET
  | AD7616_PIN_SET
deriving DecidableEq, Repr

export ad7616_pin_state_t (AD7616_PIN_RESET AD7616_PIN_SET)

abbrev AD7616_RANGE_10V : Nat := 0
abbrev AD7616_RANGE_5V : Nat := 1
abbrev AD7616_RANGE_2V5 : Nat := 2

abbrev AD7616_INTERFACE_PARALLEL : Nat := 0
abbrev AD7616_INTERFACE_SERIAL : Nat := 1

abbrev AD7616_MODE_HARDWARE : Nat := 0
abbrev AD7616_MODE_SOFTWARE : Nat := 1

abbrev AD7616_CHANNEL_VA0_VB0 : Nat := 0

/-- The record `ad7616_config_t`; the four enum fields hold the enum's integer
value, the two `uint8_t` fields a value below 256. -/
structure ad7616_config_t where
  range : Nat
  interface : Nat
  mode : Nat
  channel : Nat
  enable_sequence : Nat
  enable_busy_check : Nat
deriving DecidableEq, Repr

/-- The initializer `AD7616_DEFAULT_CONFIG`. -/
def AD7616_DEFAULT_CONFIG : ad7616_config_t :=
  { range := AD7616_RANGE_10V
    interface := AD7616_INTERFACE_PARALLEL
    mode := AD7616_MODE_HARDWARE
    channel := AD7616_CHANNEL_VA0_VB0
    enable_sequence := 0
    enable_busy_check := 0 }

/-- The callback table `ad7616_hw_ops_t`; `none` is a `NULL` function pointer.
The `user_ctx` argument of every callback is the world `σ` itself. -/
structure ad7616_hw_ops_t (σ : Type) where
  write_pin : Option (σ → Nat → ad7616_pin_state_t → σ)
  read_pin : Option (σ → Nat → ad7616_pin_state_t × σ)
  delay_us : Option (σ → Nat → σ)
  delay_ms : Option (σ → Nat → σ)
  read_data_bus : Option (σ → Nat × σ)

/-- The device record `ad7616_t`. -/
structure ad7616_t (σ : Type) where
  hw : ad7616_hw_ops_t σ
  config : ad7616_config_t
  is_initialized : Nat

/-- What a public driver call leaves behind: its return value (or the cells
behind its output pointers), the device record and the hardware world. -/
structure call_result (σ : Type) (ρ : Type) where
  ret : ρ
  dev : Option (ad7616_t σ)
  world : σ

/-! ## ad7616.c: static helpers -/

variable {σ : Type}

/-- The helper `set_pin`: calls `write_pin` when the device and the callback exist. -/
def set_pin (dev : Option (ad7616_t σ)) (pin_id : Nat) (state : ad7616_pin_state_t)
    (world : σ) : σ :=
  match dev with
  | some d =>
    match d.hw.write_pin with
    | some f => f world pin_id state
    | none => world
  | none => world

/-- The helper `get_pin`: calls `read_pin` when the device and the callback exist,
otherwise answers `AD7616_PIN_RESET`. -/
def get_pin (dev : Option (ad7616_t σ)) (pin_id : Nat) (world : σ) :
    ad7616_pin_state_t × σ :=
  match dev with
  | some d =>
    match d.hw.read_pin with
    | some f => f world pin_id
    | none => (AD7616_PIN_RESET, world)
  | none => (AD7616_PIN_RESET, world)

/-- The helper `delay_us`. -/
def delay_us (dev : Option (ad7616_t σ)) (us : Nat) (world : σ) : σ :=
  match dev with
  | some d =>
    match d.hw.delay_us with
    | some f => f world us
    | none => world
  | none => world

/-- The helper `delay_ms`. -/
def delay_ms (dev : Option (ad7616_t σ)) (ms : Nat) (world : σ) : σ :=
  match dev with
  | some d =>
    match d.hw.delay_ms with
    | some f => f world ms
    | none => world
  | none => world

/-- The function `configure_pins_by_config`: writes every configuration-dependent
pin from `dev->config`. The `switch` on the range has no `default`, so a range
outside the three enumerators writes neither range pin. -/
def configure_pins_by_config (dev : Option (ad7616_t σ)) (world : σ) : σ :=
  match dev with
  | none => world
  | some d =>
    let config := d.config
    -- set enable sequence pin
    let world :=
      if config.enable_sequence ≠ 0 then set_pin dev AD7616_PIN_SEQEN AD7616_PIN_SET world
      else set_pin dev AD7616_PIN_SEQEN AD7616_PIN_RESET world
    -- set range pins
    let world :=
      if config.range = AD7616_RANGE_10V then
        set_pin dev AD7616_PIN_RNGSEL1 AD7616_PIN_SET
          (set_pin dev AD7616_PIN_RNGSEL0 AD7616_PIN_SET world)
      else if config.range = AD7616_RANGE_5V then
        set_pin dev AD7616_PIN_RNGSEL1 AD7616_PIN_SET
          (set_pin dev AD7616_PIN_RNGSEL0 AD7616_PIN_RESET world)
      else if config.range = AD7616_RANGE_2V5 then
        set_pin dev AD7616_PIN_RNGSEL1 AD7616_PIN_RESET
          (set_pin dev AD7616_PIN_RNGSEL0 AD7616_PIN_SET world)
      else world
    -- set interface
    let world :=
      if config.interface = AD7616_INTERFACE_SERIAL then
        set_pin dev AD7616_PIN_SER AD7616_PIN_SET world
      else set_pin dev AD7616_PIN_SER AD7616_PIN_RESET world
    -- set mode
    let world :=
      if config.mode = AD7616_MODE_SOFTWARE then
        set_pin dev AD7616_PIN_WR AD7616_PIN_RESET world
      else set_pin dev AD7616_PIN_WR AD7616_PIN_SET world
    -- RD and CS high
    let world := set_pin dev AD7616_PIN_RD AD7616_PIN_SET world
    let world := set_pin dev AD7616_PIN_CS AD7616_PIN_SET world
    -- channel pins, from `(uint8_t)config->channel`
    let channel_bits := config.channel % 256
    let world := set_pin dev AD7616_PIN_CHSEL0
      (if channel_bits &&& 0x01 ≠ 0 then AD7616_PIN_SET else AD7616_PIN_RESET) world
    let world := set_pin dev AD7616_PIN_CHSEL1
      (if channel_bits &&& 0x02 ≠ 0 then AD7616_PIN_SET else AD7616_PIN_RESET) world
    let world := set_pin dev AD7616_PIN_CHSEL2
      (if channel_bits &&& 0x04 ≠ 0 then AD7616_PIN_SET else AD7616_PIN_RESET) world
    -- CONVST low
    set_pin dev AD7616_PIN_CONVST AD7616_PIN_RESET world

/-! ## ad7616.c: public functions -/

/-- The function `ad7616_reset`. -/
def ad7616_reset (dev : Option (ad7616_t σ)) (world : σ) : call_result σ Unit :=
  match dev with
  | none => { ret := (), dev := dev, world := world }
  | some _ =>
    let world := set_pin dev AD7616_PIN_ENRESET AD7616_PIN_SET world
    let world := delay_us dev 1 world
    let world := set_pin dev AD7616_PIN_ENRESET AD7616_PIN_RESET world
    let world := delay_us dev 1 world
    let world := set_pin dev AD7616_PIN_ENRESET AD7616_PIN_SET world
    { ret := (), dev := dev, world := world }

/-- The function `ad7616_init_with_config`: returns at once when either pointer
is `NULL`. -/
def ad7616_init_with_config (dev : Option (ad7616_t σ)) (config : Option ad7616_config_t)
    (world : σ) : call_result σ Unit :=
  match dev, config with
  | some d, some c =>
    -- copy configuration
    let dev := some { d with config := c }
    let world := configure_pins_by_config dev world
    let world := delay_ms dev 1 world
    let r := ad7616_reset dev world
    let world := delay_ms r.dev 10 r.world
    -- mark as initialized
    { ret := (), dev := r.dev.map fun d => { d with is_initialized := 1 }, world := world }
  | _, _ => { ret := (), dev := dev, world := world }

/-- The function `ad7616_init`: initialises with `AD7616_DEFAULT_CONFIG`. -/
def ad7616_init (dev : Option (ad7616_t σ)) (world : σ) : call_result σ Unit :=
  match dev with
  | none => { ret := (), dev := dev, world := world }
  | some _ =>
    let default_config := AD7616_DEFAULT_CONFIG
    ad7616_init_with_config dev (some default_config) world

/-- The function `ad7616_start_convst`. -/
def ad7616_start_convst (dev : Option (ad7616_t σ)) (world : σ) : call_result σ Unit :=
  match dev with
  | none => { ret := (), dev := dev, world := world }
  | some _ =>
    let world := set_pin dev AD7616_PIN_CONVST AD7616_PIN_SET world
    let world := delay_us dev 1 world
    let world := set_pin dev AD7616_PIN_CONVST AD7616_PIN_RESET world
    let world := delay_us dev 1 world
    { ret := (), dev := dev, world := world }

/-- The cast `(int16_t)x` of a `uint16_t` value. -/
def int16_cast (x : Nat) : Int :=
  if x % 65536 < 32768 then ((x % 65536 : Nat) : Int) else ((x % 65536 : Nat) : Int) - 65536

/-- The function `myad7616_read_data`. The cells behind `cha_data` and `chb_data`
are `none` for a `NULL` pointer and `some v` for a cell holding `v`; the result
carries the two cells as the call leaves them. -/
def myad7616_read_data (dev : Option (ad7616_t σ)) (cha_data chb_data : Option Int)
    (world : σ) : call_result σ (Option Int × Option Int) :=
  match dev with
  | none => { ret := (cha_data, chb_data), dev := dev, world := world }
  | some d =>
    let rxdata_a : Nat := 0
    let rxdata_b : Nat := 0
    let world := set_pin dev AD7616_PIN_CS AD7616_PIN_RESET world
    let world := set_pin dev AD7616_PIN_RD AD7616_PIN_RESET world
    let (rxdata_a, world) :=
      match d.hw.read_data_bus with
      | some f => ((f world).1 % 65536, (f world).2)
      | none => (rxdata_a, world)
    let world := set_pin dev AD7616_PIN_RD AD7616_PIN_SET world
    let world := set_pin dev AD7616_PIN_CS AD7616_PIN_SET world
    let world := delay_us dev 1 world
    let world := set_pin dev AD7616_PIN_CS AD7616_PIN_RESET world
    let world := set_pin dev AD7616_PIN_RD AD7616_PIN_RESET world
    let (rxdata_b, world) :=
      match d.hw.read_data_bus with
      | some f => ((f world).1 % 65536, (f world).2)
      | none => (rxdata_b, world)
    let world := set_pin dev AD7616_PIN_RD AD7616_PIN_SET world
    let world := set_pin dev AD7616_PIN_CS AD7616_PIN_SET world
    { ret := (cha_data.map fun _ => int16_cast rxdata_a,
              chb_data.map fun _ => int16_cast rxdata_b),
      dev := dev, world := world }

/-- The function `myad7616_get_busy_status`. -/
def myad7616_get_busy_status (dev : Option (ad7616_t σ)) (world : σ) :
    call_result σ ad7616_pin_state_t :=
  match dev with
  | some d =>
    match d.hw.read_pin with
    | some f => { ret := (f world AD7616_PIN_BUSY).1, dev := dev,
                  world := (f world AD7616_PIN_BUSY).2 }
    | none => { ret := AD7616_PIN_RESET, dev := dev, world := world }
  | none => { ret := AD7616_PIN_RESET, dev := dev, world := world }

/-- The function `ad7616_update_config`: `-1` when either pointer is `NULL`, else `0`. -/
def ad7616_update_config (dev : Option (ad7616_t σ)) (config : Option ad7616_config_t)
    (world : σ) : call_result σ Int :=
  match dev, config with
  | some d, some c =>
    let dev := some { d with config := c }
    let world := configure_pins_by_config dev world
    { ret := 0, dev := dev, world := world }
  | _, _ => { ret := -1, dev := dev, world := world }

/-- The function `ad7616_get_config`: `none` (a `NULL` result) for a `NULL` device,
else the stored configuration. -/
def ad7616_get_config (dev : Option (ad7616_t σ)) : Option ad7616_config_t :=
  match dev with
  | none => none
  | some d => some d.config

/-! ## Observing the hardware calls -/

/-- One call through the callback table, with its arguments and, for the two
reading callbacks, the value the callback returned. -/
inductive hw_event where
  | write_pin (pin_id : Nat) (state : ad7616_pin_state_t)
  | read_pin (pin_id : Nat) (ret : ad7616_pin_state_t)
  | delay_us (us : Nat)
  | delay_ms (ms : Nat)
  | read_data_bus (ret : Nat)
deriving DecidableEq, Repr

/-- Wraps every callback that is present so that, besides doing what it did, it
appends the call to a log kept next to the world. Absent callbacks stay absent. -/
def recording_hw (hw : ad7616_hw_ops_t σ) : ad7616_hw_ops_t (σ × List hw_event) :=
  { write_pin := hw.write_pin.map fun f s pin_id state =>
      (f s.1 pin_id state, s.2 ++ [hw_event.write_pin pin_id state])
    read_pin := hw.read_pin.map fun f s pin_id =>
      ((f s.1 pin_id).1, ((f s.1 pin_id).2, s.2 ++ [hw_event.read_pin pin_id (f s.1 pin_id).1]))
    delay_us := hw.delay_us.map fun f s us => (f s.1 us, s.2 ++ [hw_event.delay_us us])
    delay_ms := hw.delay_ms.map fun f s ms => (f s.1 ms, s.2 ++ [hw_event.delay_ms ms])
    read_data_bus := hw.read_data_bus.map fun f s =>
      ((f s.1).1, ((f s.1).2, s.2 ++ [hw_event.read_data_bus (f s.1).1])) }

/-- The device with its callbacks wrapped by `recording_hw`. -/
def recording (dev : ad7616_t σ) : ad7616_t (σ × List hw_event) :=
  { hw := recording_hw dev.hw, config := dev.config, is_initialized := dev.is_initialized }

/-- The values returned by the data-bus callback, in call order. -/
def bus_returns : List hw_event → List Nat
  | [] => []
  | hw_event.read_data_bus v :: es => v :: bus_returns es
  | _ :: es => bus_returns es

/-- The pin an event writes, if it is a pin write. -/
def written_pin : hw_event → Option Nat
  | hw_event.write_pin pin_id _ => some pin_id
  | _ => none

/-- The levels written to one pin, oldest first. -/
def writes_to (pin_id : Nat) : List hw_event → List ad7616_pin_state_t
  | [] => []
  | hw_event.write_pin p state :: es =>
    if p = pin_id then state :: writes_to pin_id es else writes_to pin_id es
  | _ :: es => writes_to pin_id es

/-- Following the specification (apply-configuration, steps 1 to 7): the pin
writes a configuration stands for. -/
def spec_config_trace (c : ad7616_config_t) : List hw_event :=
  [ hw_event.write_pin AD7616_PIN_SEQEN
      (if c.enable_sequence ≠ 0 then AD7616_PIN_SET else AD7616_PIN_RESET),
    hw_event.write_pin AD7616_PIN_RNGSEL0
      (if c.range = AD7616_RANGE_10V then AD7616_PIN_SET
       else if c.range = AD7616_RANGE_5V then AD7616_PIN_RESET else AD7616_PIN_SET),
    hw_event.write_pin AD7616_PIN_RNGSEL1
      (if c.range = AD7616_RANGE_10V then AD7616_PIN_SET
       else if c.range = AD7616_RANGE_5V then AD7616_PIN_SET else AD7616_PIN_RESET),
    hw_event.write_pin AD7616_PIN_SER
      (if c.interface = AD7616_INTERFACE_SERIAL then AD7616_PIN_SET else AD7616_PIN_RESET),
    hw_event.write_pin AD7616_PIN_WR
      (if c.mode = AD7616_MODE_SOFTWARE then AD7616_PIN_RESET else AD7616_PIN_SET),
    hw_event.write_pin AD7616_PIN_RD AD7616_PIN_SET,
    hw_event.write_pin AD7616_PIN_CS AD7616_PIN_SET,
    hw_event.write_pin AD7616_PIN_CHSEL0
      (if c.channel.testBit 0 then AD7616_PIN_SET else AD7616_PIN_RESET),
    hw_event.write_pin AD7616_PIN_CHSEL1
      (if c.channel.testBit 1 then AD7616_PIN_SET else AD7616_PIN_RESET),
    hw_event.write_pin AD7616_PIN_CHSEL2
      (if c.channel.testBit 2 then AD7616_PIN_SET else AD7616_PIN_RESET),
    hw_event.write_pin AD7616_PIN_CONVST AD7616_PIN_RESET ]

/-- The reset pulse of the specification. -/
def spec_reset_trace : List hw_event :=
  [ hw_event.write_pin AD7616_PIN_ENRESET AD7616_PIN_SET,
    hw_event.delay_us 1,
    hw_event.write_pin AD7616_PIN_ENRESET AD7616_PIN_RESET,
    hw_event.delay_us 1,
    hw_event.write_pin AD7616_PIN_ENRESET AD7616_PIN_SET ]

/-! ## Sequences of public calls -/

/-- One call of the public interface, with its pointer arguments (the device
pointer is the one the sequence runs on). -/
inductive api_call where
  | init
  | init_with_config (config : Option ad7616_config_t)
  | update_config (config : Option ad7616_config_t)
  | reset
  | start_convst
  | read_data (cha_data chb_data : Option Int)
  | get_busy_status
  | get_config

/-- Runs one public call on a device and world, keeping what it leaves behind. -/
def api_step (s : Option (ad7616_t σ) × σ) (op : api_call) : Option (ad7616_t σ) × σ :=
  match op with
  | api_call.init =>
    ((ad7616_init s.1 s.2).dev, (ad7616_init s.1 s.2).world)
  | api_call.init_with_config config =>
    ((ad7616_init_with_config s.1 config s.2).dev, (ad7616_init_with_config s.1 config s.2).world)
  | api_call.update_config config =>
    ((ad7616_update_config s.1 config s.2).dev, (ad7616_update_config s.1 config s.2).world)
  | api_call.reset =>
    ((ad7616_reset s.1 s.2).dev, (ad7616_reset s.1 s.2).world)
  | api_call.start_convst =>
    ((ad7616_start_convst s.1 s.2).dev, (ad7616_start_convst s.1 s.2).world)
  | api_call.read_data cha_data chb_data =>
    ((myad7616_read_data s.1 cha_data chb_data s.2).dev,
      (myad7616_read_data s.1 cha_data chb_data s.2).world)
  | api_call.get_busy_status =>
    ((myad7616_get_busy_status s.1 s.2).dev, (myad7616_get_busy_status s.1 s.2).world)
  | api_call.get_config => s

/-- Runs a sequence of public calls, first to last. -/
def api_run (s : Option (ad7616_t σ) × σ) (ops : List api_call) : Option (ad7616_t σ) × σ :=
  ops.foldl api_step s

/-- Following the specification: the configuration value a call passes to init or
update, if it passes one (`ad7616_init` passes the default configuration). -/
def passed_config : api_call → Option ad7616_config_t
  | api_call.init => some AD7616_DEFAULT_CONFIG
  | api_call.init_with_config config => config
  | api_call.update_config config => config
  | _ => none

/-- Following the specification: the configuration passed by the most recent init
or update call of a sequence that had one. -/
def last_passed_config (ops : List api_call) : Option ad7616_config_t :=
  ops.reverse.findSome? passed_config

/-! ## A concrete board, for evaluating the driver -/

/-- A board whose world is the queue of samples the data bus will deliver; the
busy pin reads `AD7616_PIN_SET`. -/
def demo_hw : ad7616_hw_ops_t (List Nat) :=
  { write_pin := some fun s _ _ => s
    read_pin := some fun s _ => (AD7616_PIN_SET, s)
    delay_us := some fun s _ => s
    delay_ms := some fun s _ => s
    read_data_bus := some fun s => (s.headD 0 % 65536, s.tail) }

/-- A device on the demo board, not yet initialised. -/
def demo_dev : ad7616_t (List Nat) :=
  { hw := demo_hw, config := AD7616_DEFAULT_CONFIG, is_initialized := 0 }

/-- The configuration of the specification's example: 5V, parallel, hardware,
channel 3, sequencer on. -/
def demo_config : ad7616_config_t :=
  { range := AD7616_RANGE_5V
    interface := AD7616_INTERFACE_PARALLEL
    mode := AD7616_MODE_HARDWARE
    channel := 3
    enable_sequence := 1
    enable_busy_check := 0 }

/-- The demo device holding the example configuration instead of the default. -/
def demo_dev_configured : ad7616_t (List Nat) :=
  { hw := demo_hw, config := demo_config, is_initialized := 0 }

/-- The demo device without a data-bus callback. -/
def demo_dev_no_bus : ad7616_t (List Nat) :=
  { hw := { demo_hw with read_data_bus := none }, config := AD7616_DEFAULT_CONFIG,
    is_initialized := 0 }

/-! ## Theorems -/

/-- Two writes to the same pin under an `if` are one write of the chosen level. -/
theorem set_pin_ite (p : Prop) [Decidable p] (dev : Option (ad7616_t σ)) (pin_id : Nat)
    (a b : ad7616_pin_state_t) (world : σ) :
    (if p then set_pin dev pin_id a world else set_pin dev pin_id b world)
      = set_pin dev pin_id (if p then a else b) world := by
  split <;> rfl

/-- A pin write on a recording device with a write-pin callback. -/
theorem set_pin_recording (dev : ad7616_t σ) (f : σ → Nat → ad7616_pin_state_t → σ)
    (hf : dev.hw.write_pin = some f) (pin_id : Nat) (state : ad7616_pin_state_t)
    (x : σ × List hw_event) :
    set_pin (some (recording dev)) pin_id state x
      = (f x.1 pin_id state, x.2 ++ [hw_event.write_pin pin_id state]) := by
  simp [set_pin, recording, recording_hw, hf]

/-- A microsecond delay on a recording device with that callback. -/
theorem delay_us_recording (dev : ad7616_t σ) (f : σ → Nat → σ)
    (hf : dev.hw.delay_us = some f) (us : Nat) (x : σ × List hw_event) :
    delay_us (some (recording dev)) us x = (f x.1 us, x.2 ++ [hw_event.delay_us us]) := by
  simp [delay_us, recording, recording_hw, hf]

/-- A millisecond delay on a recording device with that callback. -/
theorem delay_ms_recording (dev : ad7616_t σ) (f : σ → Nat → σ)
    (hf : dev.hw.delay_ms = some f) (ms : Nat) (x : σ × List hw_event) :
    delay_ms (some (recording dev)) ms x = (f x.1 ms, x.2 ++ [hw_event.delay_ms ms]) := by
  simp [delay_ms, recording, recording_hw, hf]

/-- Storing a configuration commutes with wrapping the callbacks. -/
theorem recording_with_config (dev : ad7616_t σ) (c : ad7616_config_t) :
    ({ recording dev with config := c } : ad7616_t (σ × List hw_event))
      = recording { dev with config := c } := rfl

/-- One public call on an existing device leaves a device, whose configuration is
the one the call passed, if it passed one. -/
theorem api_step_config (d : ad7616_t σ) (w : σ) (op : api_call) :
    ∃ d2 w2, api_step (some d, w) op = (some d2, w2)
      ∧ d2.config = (passed_config op).getD d.config := by
  cases op with
  | init => exact ⟨_, _, rfl, rfl⟩
  | init_with_config config => cases config <;> exact ⟨_, _, rfl, rfl⟩
  | update_config config => cases config <;> exact ⟨_, _, rfl, rfl⟩
  | reset => exact ⟨_, _, rfl, rfl⟩
  | start_convst => exact ⟨_, _, rfl, rfl⟩
  | read_data a b => exact ⟨_, _, rfl, rfl⟩
  | get_busy_status =>
    rcases h : d.hw.read_pin with _ | f
    · exact ⟨d, w, by simp [api_step, myad7616_get_busy_status, h], rfl⟩
    · exact ⟨d, (f w AD7616_PIN_BUSY).2, by simp [api_step, myad7616_get_busy_status, h], rfl⟩
  | get_config => exact ⟨_, _, rfl, rfl⟩

/-- The configuration passed last in `op :: ops` is the one passed last in `ops`,
or else the one `op` passed. -/
theorem last_passed_config_cons (op : api_call) (ops : List api_call) :
    last_passed_config (op :: ops) = (last_passed_config ops).or (passed_config op) := by
  simp [last_passed_config, List.findSome?_append, List.findSome?_cons]
  cases passed_config op <;> simp

/-- After a sequence of public calls an existing device still exists and holds
the configuration passed last, or its first one if none was passed. -/
theorem api_run_config (ops : List api_call) :
    ∀ (d : ad7616_t σ) (w : σ), ∃ d2 w2, api_run (some d, w) ops = (some d2, w2)
      ∧ d2.config = (last_passed_config ops).getD d.config := by
  induction ops with
  | nil => intro d w; exact ⟨d, w, rfl, rfl⟩
  | cons op ops ih =>
    intro d w
    obtain ⟨d1, w1, h1, hc1⟩ := api_step_config d w op
    obtain ⟨d2, w2, h2, hc2⟩ := ih d1 w1
    refine ⟨d2, w2, ?_, ?_⟩
    · show api_run (api_step (some d, w) op) ops = _
      rw [h1, h2]
    · rw [hc2, hc1, last_passed_config_cons]
      cases last_passed_config ops <;> cases passed_config op <;> rfl

/-- On a recording device with a write-pin callback holding a configuration whose
range is 10V, 5V or 2V5 and whose channel is 0..7, applying the configuration
logs exactly the pin writes of the specification. -/
theorem configure_trace_spec (d : ad7616_t σ) (c : ad7616_config_t) (w : σ)
    (hwp : d.hw.write_pin.isSome = true)
    (hrange : c.range = AD7616_RANGE_10V ∨ c.range = AD7616_RANGE_5V ∨
      c.range = AD7616_RANGE_2V5)
    (hchan : c.channel ≤ 7) :
    (configure_pins_by_config (some (recording { d with config := c })) (w, [])).2
      = spec_config_trace c := by
  obtain ⟨f, hf⟩ := Option.isSome_iff_exists.mp hwp
  have hd2 : ({ d with config := c } : ad7616_t σ).hw.write_pin = some f := hf
  obtain ⟨range, interface, mode, channel, es, eb⟩ := c
  simp only at hrange hchan
  simp only [configure_pins_by_config, set_pin_ite]
  simp only [set_pin_recording _ f hd2]
  interval_cases channel <;> rcases hrange with rfl | rfl | rfl <;>
    simp [recording, spec_config_trace, Nat.testBit] <;> decide

/-- C1: on a device with a write-pin callback, for a configuration whose range is
10V, 5V or 2V5 and whose channel is 0..7, applying the configuration makes exactly
the eleven pin writes of the specification, in order, and no other hardware call:
directly, through `ad7616_update_config` from any previous device state, and again
when the same configuration is applied a second time; no write goes to ENRESET or
BUSY. -/
theorem configure_pins_trace (dev : ad7616_t σ) (c : ad7616_config_t) (world : σ)
    (hwp : dev.hw.write_pin.isSome = true)
    (hrange : c.range = AD7616_RANGE_10V ∨ c.range = AD7616_RANGE_5V ∨
      c.range = AD7616_RANGE_2V5)
    (hchan : c.channel ≤ 7) :
    (configure_pins_by_config (some (recording { dev with config := c })) (world, [])).2
        = spec_config_trace c
    ∧ (ad7616_update_config (some (recording dev)) (some c) (world, [])).world.2
        = spec_config_trace c
    ∧ (ad7616_update_config
        (ad7616_update_config (some (recording dev)) (some c) (world, [])).dev (some c)
        ((ad7616_update_config (some (recording dev)) (some c) (world, [])).world.1, [])).world.2
        = spec_config_trace c
    ∧ (∀ e ∈ (ad7616_update_config (some (recording dev)) (some c) (world, [])).world.2,
        written_pin e ≠ some AD7616_PIN_ENRESET ∧ written_pin e ≠ some AD7616_PIN_BUSY) := by
  have key : ∀ (d : ad7616_t σ) (w : σ), d.hw.write_pin.isSome = true →
      (configure_pins_by_config (some (recording { d with config := c })) (w, [])).2
        = spec_config_trace c :=
    fun d w hd => configure_trace_spec d c w hd hrange hchan
  have hupd : ∀ (d : ad7616_t σ) (w : σ), d.hw.write_pin.isSome = true →
      (ad7616_update_config (some (recording d)) (some c) (w, [])).world.2
        = spec_config_trace c := by
    intro d w hd
    simp only [ad7616_update_config, recording_with_config]
    exact key d w hd
  refine ⟨key dev world hwp, hupd dev world hwp, ?_, ?_⟩
  · simp only [ad7616_update_config, recording_with_config]
    exact key _ _ hwp
  · rw [hupd dev world hwp]
    intro e he
    simp only [spec_config_trace, List.mem_cons, List.mem_singleton, List.not_mem_nil,
      or_false] at he
    rcases he with h | h | h | h | h | h | h | h | h | h | h <;> subst h <;>
      simp [written_pin]

/-- C1, at the specification's example (5V, parallel, hardware, channel 3,
sequencer on) on the demo board: the hypotheses hold and the trace is the one
the specification lists. -/
theorem configure_pins_trace_witness :
    demo_dev.hw.write_pin.isSome = true
    ∧ demo_config.channel ≤ 7
    ∧ (ad7616_update_config (some (recording demo_dev)) (some demo_config) ([], [])).world.2
      = [ hw_event.write_pin AD7616_PIN_SEQEN AD7616_PIN_SET,
          hw_event.write_pin AD7616_PIN_RNGSEL0 AD7616_PIN_RESET,
          hw_event.write_pin AD7616_PIN_RNGSEL1 AD7616_PIN_SET,
          hw_event.write_pin AD7616_PIN_SER AD7616_PIN_RESET,
          hw_event.write_pin AD7616_PIN_WR AD7616_PIN_SET,
          hw_event.write_pin AD7616_PIN_RD AD7616_PIN_SET,
          hw_event.write_pin AD7616_PIN_CS AD7616_PIN_SET,
          hw_event.write_pin AD7616_PIN_CHSEL0 AD7616_PIN_SET,
          hw_event.write_pin AD7616_PIN_CHSEL1 AD7616_PIN_SET,
          hw_event.write_pin AD7616_PIN_CHSEL2 AD7616_PIN_RESET,
          hw_event.write_pin AD7616_PIN_CONVST AD7616_PIN_RESET ] :=
  ⟨rfl, by decide,
    (configure_pins_trace demo_dev demo_config [] rfl (Or.inr (Or.inl rfl)) (by decide)).2.1⟩

/-- C7: on a device with write-pin and microsecond-delay callbacks, whatever its
stored configuration, `ad7616_reset` makes exactly the calls ENRESET=SET,
delay 1 us, ENRESET=RESET, delay 1 us, ENRESET=SET; the last level written to
ENRESET is SET; the device record (configuration, initialized flag) is unchanged. -/
theorem reset_trace (dev : ad7616_t σ) (world : σ)
    (hwp : dev.hw.write_pin.isSome = true) (hus : dev.hw.delay_us.isSome = true) :
    (ad7616_reset (some (recording dev)) (world, [])).world.2
        = [ hw_event.write_pin AD7616_PIN_ENRESET AD7616_PIN_SET,
            hw_event.delay_us 1,
            hw_event.write_pin AD7616_PIN_ENRESET AD7616_PIN_RESET,
            hw_event.delay_us 1,
            hw_event.write_pin AD7616_PIN_ENRESET AD7616_PIN_SET ]
    ∧ (writes_to AD7616_PIN_ENRESET
        (ad7616_reset (some (recording dev)) (world, [])).world.2).getLast? = some AD7616_PIN_SET
    ∧ (ad7616_reset (some dev) world).dev = some dev := by
  obtain ⟨f, hf⟩ := Option.isSome_iff_exists.mp hwp
  obtain ⟨g, hg⟩ := Option.isSome_iff_exists.mp hus
  simp [ad7616_reset, set_pin_recording dev f hf, delay_us_recording dev g hg, writes_to]

/-- C7 on the demo board. -/
theorem reset_trace_witness :
    demo_dev.hw.write_pin.isSome = true ∧ demo_dev.hw.delay_us.isSome = true
    ∧ (ad7616_reset (some (recording demo_dev)) ([], [])).world.2
        = [ hw_event.write_pin AD7616_PIN_ENRESET AD7616_PIN_SET,
            hw_event.delay_us 1,
            hw_event.write_pin AD7616_PIN_ENRESET AD7616_PIN_RESET,
            hw_event.delay_us 1,
            hw_event.write_pin AD7616_PIN_ENRESET AD7616_PIN_SET ] :=
  ⟨rfl, rfl, (reset_trace demo_dev [] rfl rfl).1⟩

/-- C8: on a device with write-pin and microsecond-delay callbacks, whatever its
stored configuration, `ad7616_start_convst` makes exactly the calls CONVST=SET,
delay 1 us, CONVST=RESET, delay 1 us; the last level written to CONVST is RESET;
no other pin is written. -/
theorem start_convst_trace (dev : ad7616_t σ) (world : σ)
    (hwp : dev.hw.write_pin.isSome = true) (hus : dev.hw.delay_us.isSome = true) :
    (ad7616_start_convst (some (recording dev)) (world, [])).world.2
        = [ hw_event.write_pin AD7616_PIN_CONVST AD7616_PIN_SET,
            hw_event.delay_us 1,
            hw_event.write_pin AD7616_PIN_CONVST AD7616_PIN_RESET,
            hw_event.delay_us 1 ]
    ∧ (writes_to AD7616_PIN_CONVST
        (ad7616_start_convst (some (recording dev)) (world, [])).world.2).getLast?
        = some AD7616_PIN_RESET
    ∧ (∀ e ∈ (ad7616_start_convst (some (recording dev)) (world, [])).world.2,
        written_pin e = none ∨ written_pin e = some AD7616_PIN_CONVST) := by
  obtain ⟨f, hf⟩ := Option.isSome_iff_exists.mp hwp
  obtain ⟨g, hg⟩ := Option.isSome_iff_exists.mp hus
  simp [ad7616_start_convst, set_pin_recording dev f hf, delay_us_recording dev g hg,
    writes_to, written_pin]

/-- C8 on the demo board. -/
theorem start_convst_trace_witness :
    demo_dev.hw.write_pin.isSome = true ∧ demo_dev.hw.delay_us.isSome = true
    ∧ (ad7616_start_convst (some (recording demo_dev)) ([], [])).world.2
        = [ hw_event.write_pin AD7616_PIN_CONVST AD7616_PIN_SET,
            hw_event.delay_us 1,
            hw_event.write_pin AD7616_PIN_CONVST AD7616_PIN_RESET,
            hw_event.delay_us 1 ] :=
  ⟨rfl, rfl, (start_convst_trace demo_dev [] rfl rfl).1⟩

/-- C6: on a device with write-pin, microsecond-delay and data-bus callbacks,
whatever its stored configuration, `myad7616_read_data` makes exactly the calls
CS=RESET, RD=RESET, bus read, RD=SET, CS=SET, delay 1 us, CS=RESET, RD=RESET,
bus read, RD=SET, CS=SET; the last level written to RD and to CS is SET; no pin
other than RD and CS is written. -/
theorem read_data_trace (dev : ad7616_t σ) (cha_data chb_data : Option Int) (world : σ)
    (hwp : dev.hw.write_pin.isSome = true) (hus : dev.hw.delay_us.isSome = true)
    (hbus : dev.hw.read_data_bus.isSome = true) :
    (∃ v1 v2 : Nat,
      (myad7616_read_data (some (recording dev)) cha_data chb_data (world, [])).world.2
        = [ hw_event.write_pin AD7616_PIN_CS AD7616_PIN_RESET,
            hw_event.write_pin AD7616_PIN_RD AD7616_PIN_RESET,
            hw_event.read_data_bus v1,
            hw_event.write_pin AD7616_PIN_RD AD7616_PIN_SET,
            hw_event.write_pin AD7616_PIN_CS AD7616_PIN_SET,
            hw_event.delay_us 1,
            hw_event.write_pin AD7616_PIN_CS AD7616_PIN_RESET,
            hw_event.write_pin AD7616_PIN_RD AD7616_PIN_RESET,
            hw_event.read_data_bus v2,
            hw_event.write_pin AD7616_PIN_RD AD7616_PIN_SET,
            hw_event.write_pin AD7616_PIN_CS AD7616_PIN_SET ])
    ∧ (writes_to AD7616_PIN_RD
        (myad7616_read_data (some (recording dev)) cha_data chb_data (world, [])).world.2).getLast?
        = some AD7616_PIN_SET
    ∧ (writes_to AD7616_PIN_CS
        (myad7616_read_data (some (recording dev)) cha_data chb_data (world, [])).world.2).getLast?
        = some AD7616_PIN_SET
    ∧ (∀ e ∈ (myad7616_read_data (some (recording dev)) cha_data chb_data (world, [])).world.2,
        written_pin e = none ∨ written_pin e = some AD7616_PIN_RD
          ∨ written_pin e = some AD7616_PIN_CS) := by
  obtain ⟨f, hf⟩ := Option.isSome_iff_exists.mp hwp
  obtain ⟨g, hg⟩ := Option.isSome_iff_exists.mp hus
  obtain ⟨b, hb⟩ := Option.isSome_iff_exists.mp hbus
  have hrb : (recording dev).hw.read_data_bus
      = some fun s => ((b s.1).1, ((b s.1).2, s.2 ++ [hw_event.read_data_bus (b s.1).1])) := by
    simp [recording, recording_hw, hb]
  simp [myad7616_read_data, hrb, set_pin_recording dev f hf, delay_us_recording dev g hg,
    writes_to, written_pin]

/-- C6 on the demo board, with the bus delivering 40000 and then 7. -/
theorem read_data_trace_witness :
    demo_dev.hw.write_pin.isSome = true ∧ demo_dev.hw.delay_us.isSome = true
    ∧ demo_dev.hw.read_data_bus.isSome = true
    ∧ (∃ v1 v2 : Nat,
      (myad7616_read_data (some (recording demo_dev)) (some 0) (some 0) ([40000, 7], [])).world.2
        = [ hw_event.write_pin AD7616_PIN_CS AD7616_PIN_RESET,
            hw_event.write_pin AD7616_PIN_RD AD7616_PIN_RESET,
            hw_event.read_data_bus v1,
            hw_event.write_pin AD7616_PIN_RD AD7616_PIN_SET,
            hw_event.write_pin AD7616_PIN_CS AD7616_PIN_SET,
            hw_event.delay_us 1,
            hw_event.write_pin AD7616_PIN_CS AD7616_PIN_RESET,
            hw_event.write_pin AD7616_PIN_RD AD7616_PIN_RESET,
            hw_event.read_data_bus v2,
            hw_event.write_pin AD7616_PIN_RD AD7616_PIN_SET,
            hw_event.write_pin AD7616_PIN_CS AD7616_PIN_SET ]) :=
  ⟨rfl, rfl, rfl, (read_data_trace demo_dev (some 0) (some 0) [40000, 7] rfl rfl rfl).1⟩

/-- C2: on a device whose data-bus callback exists and returns 16-bit unsigned
values (the other callbacks may or may not exist), `myad7616_read_data` calls the
bus callback exactly twice; with v1 and v2 the values of the first and the second
call, the channel A cell receives v1 read as a signed 16-bit number (v1 below
32768, else v1 - 65536) and the channel B cell receives v2 read the same way. -/
theorem read_data_values (dev : ad7616_t σ) (bus : σ → Nat × σ) (a0 b0 : Int) (world : σ)
    (hbus : dev.hw.read_data_bus = some bus) (h16 : ∀ s, (bus s).1 < 65536) :
    ∃ v1 v2 : Nat,
      bus_returns
          (myad7616_read_data (some (recording dev)) (some a0) (some b0) (world, [])).world.2
        = [v1, v2]
      ∧ (myad7616_read_data (some (recording dev)) (some a0) (some b0) (world, [])).ret
        = (some (if v1 < 32768 then (v1 : Int) else (v1 : Int) - 65536),
           some (if v2 < 32768 then (v2 : Int) else (v2 : Int) - 65536))
      ∧ (myad7616_read_data (some dev) (some a0) (some b0) world).ret
        = (some (if v1 < 32768 then (v1 : Int) else (v1 : Int) - 65536),
           some (if v2 < 32768 then (v2 : Int) else (v2 : Int) - 65536)) := by
  have hrb : (recording dev).hw.read_data_bus
      = some fun s => ((bus s.1).1, ((bus s.1).2, s.2 ++ [hw_event.read_data_bus (bus s.1).1])) := by
    simp [recording, recording_hw, hbus]
  have hmod : ∀ s, (bus s).1 % 65536 = (bus s).1 := fun s => Nat.mod_eq_of_lt (h16 s)
  have hwr : (recording dev).hw.write_pin = dev.hw.write_pin.map fun f s pin_id state =>
      (f s.1 pin_id state, s.2 ++ [hw_event.write_pin pin_id state]) := rfl
  have hdl : (recording dev).hw.delay_us = dev.hw.delay_us.map fun f s us =>
      (f s.1 us, s.2 ++ [hw_event.delay_us us]) := rfl
  rcases hw : dev.hw.write_pin with _ | f <;> rcases hd : dev.hw.delay_us with _ | g <;>
    simp [myad7616_read_data, hrb, hbus, set_pin, delay_us, hwr, hdl, hw, hd, bus_returns,
      int16_cast, hmod] <;>
    exact ⟨_, _, ⟨rfl, rfl⟩, rfl, rfl⟩

/-- C2 on the demo board, with the bus delivering 40000 and then 7: channel A is
40000 - 65536 and channel B is 7. -/
theorem read_data_values_witness :
    demo_dev.hw.read_data_bus = some (fun s => (s.headD 0 % 65536, s.tail))
    ∧ ∃ v1 v2 : Nat,
      bus_returns
          (myad7616_read_data (some (recording demo_dev)) (some 0) (some 0)
            ([40000, 7], [])).world.2
        = [v1, v2]
      ∧ (myad7616_read_data (some (recording demo_dev)) (some 0) (some 0) ([40000, 7], [])).ret
        = (some (if v1 < 32768 then (v1 : Int) else (v1 : Int) - 65536),
           some (if v2 < 32768 then (v2 : Int) else (v2 : Int) - 65536))
      ∧ (myad7616_read_data (some demo_dev) (some 0) (some 0) [40000, 7]).ret
        = (some (if v1 < 32768 then (v1 : Int) else (v1 : Int) - 65536),
           some (if v2 < 32768 then (v2 : Int) else (v2 : Int) - 65536)) :=
  ⟨rfl, read_data_values demo_dev (fun s => (s.headD 0 % 65536, s.tail)) 0 0 [40000, 7] rfl
    (fun _ => Nat.mod_lt _ (by decide))⟩

/-- C4: on a device with write-pin and both delay callbacks, for every
configuration c, `ad7616_init_with_config` leaves the device holding c with the
initialized flag 1, and logs the apply-configuration calls for c, then
delay 1 ms, then the reset pulse, then delay 10 ms; for a configuration whose
range is 10V, 5V or 2V5 and whose channel is 0..7 that log is, call by call, the
eleven pin writes of the specification, delay 1 ms, ENRESET=SET, delay 1 us,
ENRESET=RESET, delay 1 us, ENRESET=SET, delay 10 ms; `ad7616_init` is
`ad7616_init_with_config` with the default configuration, which is 10V,
parallel, hardware, channel 0, both flags 0. -/
theorem init_with_config_contract (dev : ad7616_t σ) (c : ad7616_config_t) (world : σ)
    (hwp : dev.hw.write_pin.isSome = true) (hus : dev.hw.delay_us.isSome = true)
    (hms : dev.hw.delay_ms.isSome = true) :
    (ad7616_init_with_config (some dev) (some c) world).dev
        = some { dev with config := c, is_initialized := 1 }
    ∧ (ad7616_init_with_config (some (recording dev)) (some c) (world, [])).world.2
        = (configure_pins_by_config (some (recording { dev with config := c })) (world, [])).2
          ++ [hw_event.delay_ms 1] ++ spec_reset_trace ++ [hw_event.delay_ms 10]
    ∧ ((c.range = AD7616_RANGE_10V ∨ c.range = AD7616_RANGE_5V ∨ c.range = AD7616_RANGE_2V5) →
        c.channel ≤ 7 →
        (ad7616_init_with_config (some (recording dev)) (some c) (world, [])).world.2
          = spec_config_trace c
            ++ [ hw_event.delay_ms 1,
                 hw_event.write_pin AD7616_PIN_ENRESET AD7616_PIN_SET,
                 hw_event.delay_us 1,
                 hw_event.write_pin AD7616_PIN_ENRESET AD7616_PIN_RESET,
                 hw_event.delay_us 1,
                 hw_event.write_pin AD7616_PIN_ENRESET AD7616_PIN_SET,
                 hw_event.delay_ms 10 ])
    ∧ ad7616_init (some dev) world
        = ad7616_init_with_config (some dev) (some AD7616_DEFAULT_CONFIG) world
    ∧ (ad7616_init (some (recording dev)) (world, [])).world.2
        = [ hw_event.write_pin AD7616_PIN_SEQEN AD7616_PIN_RESET,
            hw_event.write_pin AD7616_PIN_RNGSEL0 AD7616_PIN_SET,
            hw_event.write_pin AD7616_PIN_RNGSEL1 AD7616_PIN_SET,
            hw_event.write_pin AD7616_PIN_SER AD7616_PIN_RESET,
            hw_event.write_pin AD7616_PIN_WR AD7616_PIN_SET,
            hw_event.write_pin AD7616_PIN_RD AD7616_PIN_SET,
            hw_event.write_pin AD7616_PIN_CS AD7616_PIN_SET,
            hw_event.write_pin AD7616_PIN_CHSEL0 AD7616_PIN_RESET,
            hw_event.write_pin AD7616_PIN_CHSEL1 AD7616_PIN_RESET,
            hw_event.write_pin AD7616_PIN_CHSEL2 AD7616_PIN_RESET,
            hw_event.write_pin AD7616_PIN_CONVST AD7616_PIN_RESET,
            hw_event.delay_ms 1,
            hw_event.write_pin AD7616_PIN_ENRESET AD7616_PIN_SET,
            hw_event.delay_us 1,
            hw_event.write_pin AD7616_PIN_ENRESET AD7616_PIN_RESET,
            hw_event.delay_us 1,
            hw_event.write_pin AD7616_PIN_ENRESET AD7616_PIN_SET,
            hw_event.delay_ms 10 ]
    ∧ AD7616_DEFAULT_CONFIG
        = { range := AD7616_RANGE_10V, interface := AD7616_INTERFACE_PARALLEL,
            mode := AD7616_MODE_HARDWARE, channel := 0, enable_sequence := 0,
            enable_busy_check := 0 } := by
  obtain ⟨f, hf⟩ := Option.isSome_iff_exists.mp hwp
  obtain ⟨g, hg⟩ := Option.isSome_iff_exists.mp hus
  obtain ⟨m, hm⟩ := Option.isSome_iff_exists.mp hms
  have hrel : ∀ k : ad7616_config_t,
      (ad7616_init_with_config (some (recording dev)) (some k) (world, [])).world.2
        = (configure_pins_by_config (some (recording { dev with config := k })) (world, [])).2
          ++ [hw_event.delay_ms 1] ++ spec_reset_trace ++ [hw_event.delay_ms 10] := by
    intro k
    have hf2 : ({ dev with config := k } : ad7616_t σ).hw.write_pin = some f := hf
    have hg2 : ({ dev with config := k } : ad7616_t σ).hw.delay_us = some g := hg
    have hm2 : ({ dev with config := k } : ad7616_t σ).hw.delay_ms = some m := hm
    simp only [ad7616_init_with_config, ad7616_reset, recording_with_config,
      set_pin_recording _ f hf2, delay_us_recording _ g hg2, delay_ms_recording _ m hm2,
      spec_reset_trace]
    simp
  refine ⟨rfl, hrel c, ?_, rfl, ?_, rfl⟩
  · intro hrange hchan
    rw [hrel c, configure_trace_spec dev c world hwp hrange hchan]
    simp [spec_reset_trace]
  · have hinit : ad7616_init (some (recording dev)) (world, [])
        = ad7616_init_with_config (some (recording dev)) (some AD7616_DEFAULT_CONFIG)
            (world, []) := rfl
    rw [hinit, hrel AD7616_DEFAULT_CONFIG,
      configure_trace_spec dev AD7616_DEFAULT_CONFIG world hwp (Or.inl rfl) (by decide)]
    rfl

/-- C4 on the demo board with the example configuration (5V, parallel, hardware,
channel 3, sequencer on): the device ends holding it with the flag 1, and the
whole log is the eighteen calls listed. -/
theorem init_with_config_contract_witness :
    demo_dev.hw.write_pin.isSome = true ∧ demo_dev.hw.delay_us.isSome = true
    ∧ demo_dev.hw.delay_ms.isSome = true
    ∧ (demo_config.range = AD7616_RANGE_10V ∨ demo_config.range = AD7616_RANGE_5V
        ∨ demo_config.range = AD7616_RANGE_2V5)
    ∧ demo_config.channel ≤ 7
    ∧ (ad7616_init_with_config (some demo_dev) (some demo_config) []).dev
        = some { demo_dev with config := demo_config, is_initialized := 1 }
    ∧ (ad7616_init_with_config (some (recording demo_dev)) (some demo_config) ([], [])).world.2
        = [ hw_event.write_pin AD7616_PIN_SEQEN AD7616_PIN_SET,
            hw_event.write_pin AD7616_PIN_RNGSEL0 AD7616_PIN_RESET,
            hw_event.write_pin AD7616_PIN_RNGSEL1 AD7616_PIN_SET,
            hw_event.write_pin AD7616_PIN_SER AD7616_PIN_RESET,
            hw_event.write_pin AD7616_PIN_WR AD7616_PIN_SET,
            hw_event.write_pin AD7616_PIN_RD AD7616_PIN_SET,
            hw_event.write_pin AD7616_PIN_CS AD7616_PIN_SET,
            hw_event.write_pin AD7616_PIN_CHSEL0 AD7616_PIN_SET,
            hw_event.write_pin AD7616_PIN_CHSEL1 AD7616_PIN_SET,
            hw_event.write_pin AD7616_PIN_CHSEL2 AD7616_PIN_RESET,
            hw_event.write_pin AD7616_PIN_CONVST AD7616_PIN_RESET,
            hw_event.delay_ms 1,
            hw_event.write_pin AD7616_PIN_ENRESET AD7616_PIN_SET,
            hw_event.delay_us 1,
            hw_event.write_pin AD7616_PIN_ENRESET AD7616_PIN_RESET,
            hw_event.delay_us 1,
            hw_event.write_pin AD7616_PIN_ENRESET AD7616_PIN_SET,
            hw_event.delay_ms 10 ] :=
  ⟨rfl, rfl, rfl, Or.inr (Or.inl rfl), by decide,
    (init_with_config_contract demo_dev demo_config [] rfl rfl rfl).1,
    (init_with_config_contract demo_dev demo_config [] rfl rfl rfl).2.2.1
      (Or.inr (Or.inl rfl)) (by decide)⟩

/-- C5 as stated fails: `ad7616_init_with_config` with a null configuration on a
device holding the example configuration does not install the default
configuration and does not set the initialized flag; the device is left as it
was and no callback is called. -/
theorem init_null_config_counterexample :
    ¬ (ad7616_get_config
          (ad7616_init_with_config (some (recording demo_dev_configured)) none ([], [])).dev
        = some AD7616_DEFAULT_CONFIG
       ∧ (ad7616_init_with_config (some (recording demo_dev_configured)) none ([], [])).dev.map
          (fun d => d.is_initialized) = some 1)
    ∧ ad7616_get_config
          (ad7616_init_with_config (some (recording demo_dev_configured)) none ([], [])).dev
        = some demo_config
    ∧ (ad7616_init_with_config (some (recording demo_dev_configured)) none ([], [])).dev.map
          (fun d => d.is_initialized) = some 0
    ∧ (ad7616_init_with_config (some (recording demo_dev_configured)) none ([], [])).world
        = ([], []) := by
  refine ⟨?_, rfl, rfl, rfl⟩
  intro h
  exact absurd h.2 (by decide)

/-- C5 amended: for every existing device, `ad7616_init`, the call without a
configuration argument, installs the default configuration and sets the
initialized flag to 1; `ad7616_init_with_config` with a configuration c installs
c and sets the flag to 1; `ad7616_init_with_config` with a null configuration
returns at once, the device and the world unchanged. -/
theorem init_installs_config (dev : ad7616_t σ) (c : ad7616_config_t) (world : σ) :
    (ad7616_init (some dev) world).dev
        = some { dev with config := AD7616_DEFAULT_CONFIG, is_initialized := 1 }
    ∧ (ad7616_init_with_config (some dev) (some c) world).dev
        = some { dev with config := c, is_initialized := 1 }
    ∧ (ad7616_init_with_config (some dev) none world).dev = some dev
    ∧ (ad7616_init_with_config (some dev) none world).world = world :=
  ⟨rfl, rfl, rfl, rfl⟩

/-- C9: after any finite sequence of public calls on an existing device,
`ad7616_get_config` returns the configuration passed by the most recent init or
update call that passed one (the default configuration for `ad7616_init`), or the
configuration the device started with if no call passed one; a call that passes
no configuration (reset, start-conversion, read-data, get-busy-status,
get-configuration, init or update with a null configuration) and any call on a
null device leave the device record as it was; `ad7616_get_config` on a null
device returns null. -/
theorem get_config_last_passed (dev : ad7616_t σ) (world : σ) (ops : List api_call) :
    ad7616_get_config (api_run (some dev, world) ops).1
        = some ((last_passed_config ops).getD dev.config)
    ∧ (∀ (s : Option (ad7616_t σ) × σ) (op : api_call),
        passed_config op = none ∨ s.1 = none → (api_step s op).1 = s.1)
    ∧ ad7616_get_config (none : Option (ad7616_t σ)) = none := by
  refine ⟨?_, ?_, rfl⟩
  · obtain ⟨d2, w2, h, hc⟩ := api_run_config ops dev world
    rw [h]
    simp [ad7616_get_config, hc]
  · rintro ⟨sd, sw⟩ op h
    rcases sd with _ | d
    · cases op with
      | init => rfl
      | init_with_config config => rfl
      | update_config config => rfl
      | reset => rfl
      | start_convst => rfl
      | read_data a b => rfl
      | get_busy_status => rfl
      | get_config => rfl
    · rcases h with h | h
      · cases op with
        | init => cases h
        | init_with_config config => cases config <;> first | rfl | cases h
        | update_config config => cases config <;> first | rfl | cases h
        | reset => rfl
        | start_convst => rfl
        | read_data a b => rfl
        | get_busy_status =>
          rcases hr : d.hw.read_pin with _ | f <;>
            simp [api_step, myad7616_get_busy_status, hr]
        | get_config => rfl
      · cases h

/-- C9 on the demo board: init with the example configuration, a reset, a failed
update, a read and a conversion start leave the example configuration stored. -/
theorem get_config_last_passed_witness :
    ad7616_get_config
        (api_run (some demo_dev, [40000, 7])
          [api_call.init, api_call.init_with_config (some demo_config), api_call.reset,
           api_call.update_config none, api_call.read_data (some 0) (some 0),
           api_call.start_convst]).1
      = some demo_config
    ∧ (api_step (some demo_dev_configured, [40000, 7]) (api_call.update_config none)).1
      = some demo_dev_configured :=
  ⟨(get_config_last_passed demo_dev [40000, 7]
      [api_call.init, api_call.init_with_config (some demo_config), api_call.reset,
       api_call.update_config none, api_call.read_data (some 0) (some 0),
       api_call.start_convst]).1,
   (get_config_last_passed demo_dev [40000, 7] []).2.1
      (some demo_dev_configured, [40000, 7]) (api_call.update_config none) (Or.inl rfl)⟩

/-- C10: on a device without a data-bus callback, `myad7616_read_data` stores 0 in
both output cells whatever they held, and still makes its RD/CS pin writes and
its delay, as far as those callbacks exist, and no bus read;
`myad7616_get_busy_status` returns RESET without any call when the device is
null or has no read-pin callback, and otherwise makes one read-pin call on pin
12 and returns its value, whatever `enable_busy_check` holds. -/
theorem missing_callback_defaults (dev : ad7616_t σ) (a0 b0 : Int) (world : σ)
    (busy_dev : Option (ad7616_t σ)) (flag : Nat)
    (hbus : dev.hw.read_data_bus = none) :
    (myad7616_read_data (some dev) (some a0) (some b0) world).ret = (some 0, some 0)
    ∧ (myad7616_read_data (some (recording dev)) (some a0) (some b0) (world, [])).world.2
        = (if dev.hw.write_pin.isSome then
            [ hw_event.write_pin AD7616_PIN_CS AD7616_PIN_RESET,
              hw_event.write_pin AD7616_PIN_RD AD7616_PIN_RESET,
              hw_event.write_pin AD7616_PIN_RD AD7616_PIN_SET,
              hw_event.write_pin AD7616_PIN_CS AD7616_PIN_SET ] else [])
          ++ (if dev.hw.delay_us.isSome then [hw_event.delay_us 1] else [])
          ++ (if dev.hw.write_pin.isSome then
            [ hw_event.write_pin AD7616_PIN_CS AD7616_PIN_RESET,
              hw_event.write_pin AD7616_PIN_RD AD7616_PIN_RESET,
              hw_event.write_pin AD7616_PIN_RD AD7616_PIN_SET,
              hw_event.write_pin AD7616_PIN_CS AD7616_PIN_SET ] else [])
    ∧ (myad7616_get_busy_status busy_dev world).ret
        = (match busy_dev with
           | none => AD7616_PIN_RESET
           | some d =>
             match d.hw.read_pin with
             | none => AD7616_PIN_RESET
             | some read_pin => (read_pin world 12).1)
    ∧ (myad7616_get_busy_status (busy_dev.map recording) (world, [])).world.2
        = (match busy_dev with
           | none => []
           | some d =>
             match d.hw.read_pin with
             | none => []
             | some read_pin => [hw_event.read_pin 12 (read_pin world 12).1])
    ∧ (myad7616_get_busy_status
        (busy_dev.map fun d => { d with config := { d.config with enable_busy_check := flag } })
        world).ret
        = (myad7616_get_busy_status busy_dev world).ret := by
  have hrb : (recording dev).hw.read_data_bus = none := by
    simp [recording, recording_hw, hbus]
  have hwr : (recording dev).hw.write_pin = dev.hw.write_pin.map fun f s pin_id state =>
      (f s.1 pin_id state, s.2 ++ [hw_event.write_pin pin_id state]) := rfl
  have hdl : (recording dev).hw.delay_us = dev.hw.delay_us.map fun f s us =>
      (f s.1 us, s.2 ++ [hw_event.delay_us us]) := rfl
  refine ⟨?_, ?_, ?_, ?_, ?_⟩
  · simp [myad7616_read_data, hbus, int16_cast]
  · rcases hw : dev.hw.write_pin with _ | f <;> rcases hd : dev.hw.delay_us with _ | g <;>
      simp [myad7616_read_data, hrb, set_pin, delay_us, hwr, hdl, hw, hd]
  · rcases busy_dev with _ | d
    · rfl
    · rcases hr : d.hw.read_pin with _ | f <;> simp [myad7616_get_busy_status, hr]
  · rcases busy_dev with _ | d
    · rfl
    · rcases hr : d.hw.read_pin with _ | f <;>
        simp [myad7616_get_busy_status, recording, recording_hw, hr]
  · rcases busy_dev with _ | d
    · rfl
    · rcases hr : d.hw.read_pin with _ | f <;> simp [myad7616_get_busy_status, hr]

/-- C10 on the demo board without a bus callback: cells holding 123 and -5 both
end at 0 and the log has the eight pin writes and the delay. -/
theorem missing_callback_defaults_witness :
    demo_dev_no_bus.hw.read_data_bus = none
    ∧ (myad7616_read_data (some demo_dev_no_bus) (some 123) (some (-5)) [40000, 7]).ret
        = (some 0, some 0)
    ∧ (myad7616_read_data (some (recording demo_dev_no_bus)) (some 123) (some (-5))
        ([40000, 7], [])).world.2
        = [ hw_event.write_pin AD7616_PIN_CS AD7616_PIN_RESET,
            hw_event.write_pin AD7616_PIN_RD AD7616_PIN_RESET,
            hw_event.write_pin AD7616_PIN_RD AD7616_PIN_SET,
            hw_event.write_pin AD7616_PIN_CS AD7616_PIN_SET,
            hw_event.delay_us 1,
            hw_event.write_pin AD7616_PIN_CS AD7616_PIN_RESET,
            hw_event.write_pin AD7616_PIN_RD AD7616_PIN_RESET,
            hw_event.write_pin AD7616_PIN_RD AD7616_PIN_SET,
            hw_event.write_pin AD7616_PIN_CS AD7616_PIN_SET ]
    ∧ (myad7616_get_busy_status (some demo_dev_no_bus) [40000, 7]).ret = AD7616_PIN_SET :=
  ⟨rfl,
   (missing_callback_defaults demo_dev_no_bus 123 (-5) [40000, 7] (some demo_dev_no_bus) 1 rfl).1,
   (missing_callback_defaults demo_dev_no_bus 123 (-5) [40000, 7] (some demo_dev_no_bus) 1
      rfl).2.1,
   (missing_callback_defaults demo_dev_no_bus 123 (-5) [40000, 7] (some demo_dev_no_bus) 1
      rfl).2.2.1⟩

end AD7616
